import Mathlib

/-!
Verification of the RecallrAI Node SDK (recallrai/sdk-node).

This file gives a shallow embedding, in Lean 4, of the session and merge-conflict
lifecycle controllers and of the response-classifier layer of the SDK, and proves
the spec claims about them.  The repository contains several coexisting
generations of each module; following the spec (design notes, section 9) the
richest / latest variant is taken as canonical, and the embedding of each
operation names in a comment the source file and lines it was translated from.

Modelling conventions:
- JSON bodies are an inductive `Json`; JavaScript numbers are rationals.
- A missing (`undefined`) value is `Option.none`.
- `Date` objects are represented by the argument they were constructed from
  (`DateV`); the SDK never computes with dates, it only stores and compares them.
- Each SDK method that classifies an HTTP response is a pure function from the
  handle and the `HttpResponse` to an `Except SdkError` result paired with the
  (possibly updated) handle, mirroring the mutation of the handle fields.
- Methods that guard locally before issuing a request are split into a `Step`
  function (returning either a locally thrown error or the request that would be
  sent) so that "no HTTP request is made" is expressible.
-/

namespace RecallrSDK

/-- JavaScript `String.prototype.startsWith` on character lists. -/
def startsWithCh : List Char → List Char → Bool
  | _, [] => true
  | [], _ :: _ => false
  | a :: as, b :: bs => a == b && startsWithCh as bs

/-- JavaScript `String.prototype.includes` on character lists: some suffix of the
haystack starts with the pattern. -/
def containsCh : List Char → List Char → Bool
  | [], pat => startsWithCh [] pat
  | a :: as, pat => startsWithCh (a :: as) pat || containsCh as pat

/-- JavaScript `detail.includes(pat)` for strings. -/
def strIncludes (s pat : String) : Bool :=
  containsCh s.toList pat.toList

/-- JSON values; JavaScript numbers are modelled as rationals. -/
inductive Json where
  | null
  | bool (b : Bool)
  | num (q : Rat)
  | str (s : String)
  | arr (elems : List Json)
  | obj (fields : List (String × Json))

/-- Field lookup in a JSON object field list (first match wins). -/
def lookupField : List (String × Json) → String → Option Json
  | [], _ => none
  | (k, v) :: rest, key => if k = key then some v else lookupField rest key

/-- JavaScript property access `j.key`: `none` models `undefined`. -/
def Json.getField : Json → String → Option Json
  | .obj fields, key => lookupField fields key
  | _, _ => none

/-- JavaScript truthiness of a JSON value. -/
def Json.truthy : Json → Bool
  | .null => false
  | .bool b => b
  | .num q => decide (q ≠ 0)
  | .str s => decide (s ≠ "")
  | .arr _ => true
  | .obj _ => true

/-- Evaluation of `response.data?.detail || dflt` for a string-valued `detail` field: the
default is used when the body or the field is absent or the string is falsy
(empty). -/
def detailOr (data : Option Json) (dflt : String) : String :=
  match data.bind (fun j => j.getField "detail") with
  | some (.str s) => if s = "" then dflt else s
  | _ => dflt

/-- Reading of `response.data?.error` as an optional string (the older merge-conflict
variant reads the `error` field instead of `detail`). -/
def errorField (data : Option Json) : Option String :=
  match data.bind (fun j => j.getField "error") with
  | some (.str s) => some s
  | _ => none

/-- Evaluation of `response.data?.error || dflt` with JavaScript falsiness for `""`. -/
def errorFieldOr (data : Option Json) (dflt : String) : String :=
  match errorField data with
  | some s => if s = "" then dflt else s
  | none => dflt

/-- A normalized HTTP response as delivered by the transport adapter:
status code plus optional JSON body. -/
structure HttpResponse where
  status : Nat
  data : Option Json

/-- A JavaScript `Date`, identified by the constructor argument it was built
from (the SDK only stores dates, it never computes with them). -/
structure DateV where
  arg : Option Json

/-- The closed error taxonomy of the SDK (src/src/errors/). Every constructor
except `plain` and `httpStatusError` corresponds to a class extending
`RecallrAIError` and carries the `(message, httpStatus)` pair of the base class.
`plain msg` is a bare JavaScript `new Error(msg)`; `httpStatusError` is the
custom `Error` built in `HTTPClient.handleError` with a `.status` property
attached (the source also attaches the response body). -/
inductive SdkError where
  | recallrAI (msg : String) (httpStatus : Nat)
  | authentication (msg : String) (httpStatus : Nat)
  | timeout (msg : String) (httpStatus : Nat)
  | connection (msg : String) (httpStatus : Nat)
  | internalServer (msg : String) (httpStatus : Nat)
  | rateLimit (msg : String) (httpStatus : Nat)
  | validation (msg : String) (httpStatus : Nat)
  | userNotFound (msg : String) (httpStatus : Nat)
  | sessionNotFound (msg : String) (httpStatus : Nat)
  | invalidSessionState (msg : String) (httpStatus : Nat)
  | mergeConflictNotFound (msg : String) (httpStatus : Nat)
  | alreadyResolved (msg : String) (httpStatus : Nat)
  | invalidQuestions (msg : String) (httpStatus : Nat)
  | missingAnswers (msg : String) (httpStatus : Nat)
  | invalidAnswer (msg : String) (httpStatus : Nat)
  | plain (msg : String)
  | httpStatusError (msg : String) (httpStatus : Nat)
deriving DecidableEq

/-- Whether the error is an instance of the `RecallrAIError` class hierarchy
(`error instanceof RecallrAIError`): everything in the taxonomy is, a bare
JavaScript `Error` is not. -/
def SdkError.isRecallrAIError : SdkError → Bool
  | .plain _ => false
  | .httpStatusError _ _ => false
  | _ => true

/-- The `SessionStatus` enum (src/src/models/session.ts). -/
inductive SessionStatus where
  | pending
  | processing
  | processed
  | failed
  | insufficientBalance
deriving DecidableEq

/-- Runtime string value of a `SessionStatus` enum member. -/
def SessionStatus.toStr : SessionStatus → String
  | .pending => "pending"
  | .processing => "processing"
  | .processed => "processed"
  | .failed => "failed"
  | .insufficientBalance => "insufficient_balance"

/-- Decode a wire status string into the `SessionStatus` enum. -/
def SessionStatus.ofStr : String → Option SessionStatus
  | "pending" => some .pending
  | "processing" => some .processing
  | "processed" => some .processed
  | "failed" => some .failed
  | "insufficient_balance" => some .insufficientBalance
  | _ => none

/-- The `MergeConflictStatus` enum (src/src/models/merge-conflict.ts). -/
inductive MCStatus where
  | pending
  | inQueue
  | resolving
  | resolved
  | failed
deriving DecidableEq

/-- Decode a wire status string into the `MergeConflictStatus` enum. -/
def MCStatus.ofStr : String → Option MCStatus
  | "PENDING" => some .pending
  | "IN_QUEUE" => some .inQueue
  | "RESOLVING" => some .resolving
  | "RESOLVED" => some .resolved
  | "FAILED" => some .failed
  | _ => none

/-- The `RecallStrategy` enum (src/src/models/session.ts, latest variant). -/
inductive RecallStrategy where
  | lowLatency
  | balanced
  | agentic
  | auto
deriving DecidableEq

/-- Runtime string value of a `RecallStrategy` enum member. -/
def RecallStrategy.toStr : RecallStrategy → String
  | .lowLatency => "low_latency"
  | .balanced => "balanced"
  | .agentic => "agentic"
  | .auto => "auto"

/-- The session snapshot carried by a `Session` handle
(`SessionModel`, src/src/models/session.ts). -/
structure SessionModelV where
  sessionId : String
  status : SessionStatus
  createdAt : DateV
  metadata : Option Json

/-- The `data.session || data` / `data.conflict || data` unwrapping used by the
parse helpers. -/
def unwrapEnvelope (data : Json) (key : String) : Json :=
  match data.getField key with
  | some j => if j.truthy then j else data
  | none => data

/-- Embedding of `Session.parseSessionResponse` / `SessionModel.fromApiResponse`
(src/src/session.ts): reads `session_id`, `status`, `created_at`, `metadata`
from the (possibly `session`-wrapped) body.  `none` models the exception the
source throws when the body does not have the expected shape. -/
def parseSessionResponse (data : Json) : Option SessionModelV :=
  let sd := unwrapEnvelope data "session"
  match sd.getField "session_id", sd.getField "status" with
  | some (.str sid), some (.str st) =>
    match SessionStatus.ofStr st with
    | some status =>
      some { sessionId := sid, status := status,
             createdAt := ⟨sd.getField "created_at"⟩,
             metadata := sd.getField "metadata" }
    | none => none
  | _, _ => none

/-- A `Session` handle (src/src/session.ts): the owning user id, the session id
and the local snapshot fields `status`, `createdAt`, `metadata` (the private
`sessionData` mirror holds the same snapshot). -/
structure Session where
  userId : String
  sessionId : String
  status : SessionStatus
  createdAt : DateV
  metadata : Option Json

/-- Embedding of `Session.addMessage` (src/src/session.ts lines 383-406): classify the
response of `POST .../add-message`; no snapshot field is ever assigned. -/
def Session.addMessage (s : Session) (resp : HttpResponse) :
    Except SdkError Unit × Session :=
  if resp.status = 404 then
    let detail := detailOr resp.data ""
    if strIncludes detail ("User " ++ s.userId ++ " not found") then
      (.error (.userNotFound detail resp.status), s)
    else
      (.error (.sessionNotFound detail resp.status), s)
  else if resp.status = 400 then
    let detail := detailOr resp.data
      ("Cannot add message to session with status " ++ s.status.toStr)
    (.error (.invalidSessionState detail resp.status), s)
  else if resp.status ≠ 200 then
    (.error (.recallrAI (detailOr resp.data "Unknown error") resp.status), s)
  else
    (.ok (), s)

/-- Embedding of `Session.process` (src/src/session.ts lines 579-601): classify the response
of `POST .../process`; no snapshot field is ever assigned. -/
def Session.process (s : Session) (resp : HttpResponse) :
    Except SdkError Unit × Session :=
  if resp.status = 404 then
    let detail := detailOr resp.data ""
    if strIncludes detail ("User " ++ s.userId ++ " not found") then
      (.error (.userNotFound detail resp.status), s)
    else
      (.error (.sessionNotFound detail resp.status), s)
  else if resp.status = 400 then
    let detail := detailOr resp.data
      ("Cannot process session with status " ++ s.status.toStr)
    (.error (.invalidSessionState detail resp.status), s)
  else if resp.status ≠ 200 then
    (.error (.recallrAI (detailOr resp.data "Unknown error") resp.status), s)
  else
    (.ok (), s)

/-- Embedding of `Session.refresh` (src/src/session.ts lines 538-562): classify the response
of `GET .../sessions/:id` and, on 200, overwrite the local snapshot
(`status`, `createdAt`, `metadata`) with the parsed body.  A body that fails to
parse throws before any assignment. -/
def Session.refresh (s : Session) (resp : HttpResponse) :
    Except SdkError Unit × Session :=
  if resp.status = 404 then
    let detail := detailOr resp.data ""
    if strIncludes detail ("User " ++ s.userId ++ " not found") then
      (.error (.userNotFound detail resp.status), s)
    else
      (.error (.sessionNotFound detail resp.status), s)
  else if resp.status ≠ 200 then
    (.error (.recallrAI (detailOr resp.data "Unknown error") resp.status), s)
  else
    match resp.data with
    | none => (.error (.plain "Failed to parse session response"), s)
    | some d =>
      match parseSessionResponse d with
      | none => (.error (.plain "Failed to parse session response"), s)
      | some m =>
        (.ok (), { s with status := m.status, createdAt := m.createdAt,
                          metadata := m.metadata })

/-- The `Context` value returned by `getContext`
(src/src/models/session.ts, latest variant). -/
structure ContextV where
  context : String
deriving DecidableEq

/-- Embedding of `Context.fromApiResponse`: reads the `context` string of the body; `none`
models the validation exception on a malformed body. -/
def parseContext (data : Option Json) : Option ContextV :=
  match data.bind (fun j => j.getField "context") with
  | some (.str c) => some ⟨c⟩
  | _ => none

/-- Embedding of `Session.getContext` response handling (src/src/session.ts lines 457-484):
classify the response, then log the advisory warnings for processed/processing
sessions (second component; `console.warn` output, never thrown), then return
the parsed context. -/
def Session.getContextResp (s : Session) (resp : HttpResponse) :
    Except SdkError ContextV × List String :=
  if resp.status = 404 then
    let detail := detailOr resp.data ""
    if strIncludes detail ("User " ++ s.userId ++ " not found") then
      (.error (.userNotFound detail resp.status), [])
    else
      (.error (.sessionNotFound detail resp.status), [])
  else if resp.status ≠ 200 then
    (.error (.recallrAI (detailOr resp.data "Unknown error") resp.status), [])
  else
    let warns :=
      if s.status = .processed then
        ["You are trying to get context for a processed session. Why do you need it?"]
      else if s.status = .processing then
        ["You are trying to get context for a processing session. Why do you need it?"]
      else []
    match parseContext resp.data with
    | some c => (.ok c, warns)
    | none => (.error (.plain "Failed to parse context response"), warns)

/-- The optional arguments of `Session.getContext`
(src/src/session.ts lines 429-438): every parameter is optional; `none` models
an argument the caller omitted. -/
structure GetContextArgs where
  recallStrategy : Option RecallStrategy := none
  minTopK : Option Rat := none
  maxTopK : Option Rat := none
  memoriesThreshold : Option Rat := none
  summariesThreshold : Option Rat := none
  lastNMessages : Option Rat := none
  lastNSummaries : Option Rat := none
  timezone : Option String := none

/-- The query parameters built by `Session.getContext`
(src/src/session.ts lines 439-455): the recall strategy, top-k bounds and
thresholds are always present, filled with the client-side defaults
(`balanced`, 15, 50, 0.6, 0.5) when the caller omitted them; `last_n_messages`,
`last_n_summaries` and `timezone` are added only when the caller supplied them. -/
def getContextParams (a : GetContextArgs) : List (String × Json) :=
  let base : List (String × Json) :=
    [("recall_strategy", Json.str (a.recallStrategy.getD .balanced).toStr),
     ("min_top_k", Json.num (a.minTopK.getD 15)),
     ("max_top_k", Json.num (a.maxTopK.getD 50)),
     ("memories_threshold", Json.num (a.memoriesThreshold.getD (6 / 10))),
     ("summaries_threshold", Json.num (a.summariesThreshold.getD (1 / 2)))]
  let p1 := match a.lastNMessages with
    | some v => base ++ [("last_n_messages", Json.num v)]
    | none => base
  let p2 := match a.lastNSummaries with
    | some v => p1 ++ [("last_n_summaries", Json.num v)]
    | none => p1
  match a.timezone with
  | some tz => p2 ++ [("timezone", Json.str tz)]
  | none => p2

/-- A memory involved in a merge conflict (`MergeConflictMemory`). -/
structure MCMemory where
  content : String
  reason : String

/-- A clarifying question of a merge conflict (`MergeConflictQuestion`). -/
structure MCQuestion where
  question : String
  options : List String

/-- An answer to a clarifying question (`MergeConflictAnswer`). -/
structure MCAnswer where
  question : String
  answer : String
  message : Option String

/-- Parse one entry of `conflicting_memories`. -/
def parseMCMemory (j : Json) : Option MCMemory :=
  match j.getField "content", j.getField "reason" with
  | some (.str c), some (.str r) => some ⟨c, r⟩
  | _, _ => none

/-- Extract a list of strings from a JSON array of strings. -/
def strList : List Json → Option (List String)
  | [] => some []
  | .str s :: rest => (strList rest).map (s :: ·)
  | _ => none

/-- Parse one entry of `clarifying_questions`. -/
def parseMCQuestion (j : Json) : Option MCQuestion :=
  match j.getField "question", j.getField "options" with
  | some (.str q), some (.arr os) => (strList os).map (⟨q, ·⟩)
  | _, _ => none

/-- The merge-conflict snapshot carried by a `MergeConflict` handle
(`MergeConflictModel`, src/src/models/merge-conflict.ts). -/
structure MergeConflictModelV where
  id : String
  projectUserSessionId : Option Json
  newMemoryContent : String
  conflictingMemories : List MCMemory
  clarifyingQuestions : List MCQuestion
  status : MCStatus
  resolutionData : Option Json
  createdAt : DateV
  resolvedAt : Option DateV

/-- Embedding of `MergeConflict.parseMergeConflictResponse`
(src/src/merge-conflict.ts lines 156-176): unwrap `data.conflict || data`, read
the snake_case fields, map the memory and question arrays, cast the status, and
build the dates (`resolved_at ? new Date(resolved_at) : undefined`).  `none`
models the exception thrown on a body without the expected shape. -/
def parseMergeConflictResponse (data : Json) : Option MergeConflictModelV :=
  let cd := unwrapEnvelope data "conflict"
  match cd.getField "id", cd.getField "new_memory_content",
        cd.getField "conflicting_memories", cd.getField "clarifying_questions",
        cd.getField "status" with
  | some (.str i), some (.str nmc), some (.arr mems), some (.arr qs),
    some (.str st) =>
    match mems.mapM parseMCMemory, qs.mapM parseMCQuestion, MCStatus.ofStr st with
    | some cms, some cqs, some status =>
      some { id := i,
             projectUserSessionId := cd.getField "project_user_session_id",
             newMemoryContent := nmc,
             conflictingMemories := cms,
             clarifyingQuestions := cqs,
             status := status,
             resolutionData := cd.getField "resolution_data",
             createdAt := ⟨cd.getField "created_at"⟩,
             resolvedAt :=
               match cd.getField "resolved_at" with
               | some v => if v.truthy then some ⟨some v⟩ else none
               | none => none }
    | _, _, _ => none
  | _, _, _, _, _ => none

/-- A `MergeConflict` handle (src/src/merge-conflict.ts lines 23-57): the
owning user id plus the public snapshot fields copied from the conflict data. -/
structure MergeConflict where
  userId : String
  conflictId : String
  status : MCStatus
  newMemoryContent : String
  conflictingMemories : List MCMemory
  clarifyingQuestions : List MCQuestion
  createdAt : DateV
  resolvedAt : Option DateV
  resolutionData : Option Json

/-- The first phase of an SDK method: either an error thrown locally before any
network activity, or the request handed to the transport layer. -/
inductive RequestStep where
  | throwLocal (e : SdkError)
  | sendRequest (path : String) (body : Json)

/-- The request body built by `MergeConflict.resolve`
(src/src/merge-conflict.ts lines 81-89); an absent optional `message` is
dropped from the serialized JSON. -/
def answersBody (answers : List MCAnswer) : Json :=
  Json.obj [("answers", Json.obj [("question_answers",
    Json.arr (answers.map (fun a =>
      Json.obj ([("question", .str a.question), ("answer", .str a.answer)] ++
        (match a.message with
         | some m => [("message", Json.str m)]
         | none => [])))))])]

/-- The local phase of `MergeConflict.resolve`
(src/src/merge-conflict.ts lines 76-91): if the cached status is already
RESOLVED or FAILED, throw `MergeConflictAlreadyResolvedError` without building
or sending any request; otherwise send the answers to the resolve endpoint. -/
def MergeConflict.resolveStep (c : MergeConflict) (answers : List MCAnswer) :
    RequestStep :=
  if c.status = .resolved ∨ c.status = .failed then
    .throwLocal (.alreadyResolved
      ("Merge conflict " ++ c.conflictId ++ " is already resolved") 400)
  else
    .sendRequest
      ("/api/v1/users/" ++ c.userId ++ "/merge-conflicts/" ++ c.conflictId ++
        "/resolve")
      (answersBody answers)

/-- The response phase of `MergeConflict.resolve`
(src/src/merge-conflict.ts lines 91-122): classify 404 (user vs conflict not
found), 400 (already resolved / invalid questions / missing answers / invalid
answer / generic), other non-200 (generic); on 200 overwrite the snapshot
fields `status`, `resolvedAt`, `resolutionData` with the parsed body. -/
def MergeConflict.resolveClassify (c : MergeConflict) (resp : HttpResponse) :
    Except SdkError Unit × MergeConflict :=
  if resp.status = 404 then
    let detail := detailOr resp.data ""
    if strIncludes detail ("User " ++ c.userId ++ " not found") then
      (.error (.userNotFound detail resp.status), c)
    else
      (.error (.mergeConflictNotFound detail resp.status), c)
  else if resp.status = 400 then
    let detail := detailOr resp.data ""
    if strIncludes detail "already resolved" then
      (.error (.alreadyResolved detail resp.status), c)
    else if strIncludes detail "Invalid questions provided" then
      (.error (.invalidQuestions detail resp.status), c)
    else if strIncludes detail "Missing answers for the following questions" then
      (.error (.missingAnswers detail resp.status), c)
    else if strIncludes detail "Invalid answer" && strIncludes detail "for question" then
      (.error (.invalidAnswer detail resp.status), c)
    else
      (.error (.recallrAI detail resp.status), c)
  else if resp.status ≠ 200 then
    (.error (.recallrAI (detailOr resp.data "Unknown error") resp.status), c)
  else
    match resp.data with
    | none => (.error (.plain "Failed to parse merge conflict response"), c)
    | some d =>
      match parseMergeConflictResponse d with
      | none => (.error (.plain "Failed to parse merge conflict response"), c)
      | some m =>
        (.ok (), { c with status := m.status, resolvedAt := m.resolvedAt,
                          resolutionData := m.resolutionData })

/-- Embedding of `MergeConflict.refresh` (src/src/merge-conflict.ts lines 135-154): classify
404 / non-200, and on 200 overwrite `status`, `resolvedAt`, `resolutionData`
with the parsed body. -/
def MergeConflict.refreshClassify (c : MergeConflict) (resp : HttpResponse) :
    Except SdkError Unit × MergeConflict :=
  if resp.status = 404 then
    let detail := detailOr resp.data ""
    if strIncludes detail ("User " ++ c.userId ++ " not found") then
      (.error (.userNotFound detail resp.status), c)
    else
      (.error (.mergeConflictNotFound detail resp.status), c)
  else if resp.status ≠ 200 then
    (.error (.recallrAI (detailOr resp.data "Unknown error") resp.status), c)
  else
    match resp.data with
    | none => (.error (.plain "Failed to parse merge conflict response"), c)
    | some d =>
      match parseMergeConflictResponse d with
      | none => (.error (.plain "Failed to parse merge conflict response"), c)
      | some m =>
        (.ok (), { c with status := m.status, resolvedAt := m.resolvedAt,
                          resolutionData := m.resolutionData })

/-- Evaluation of `error?.includes(pat)` on the optional `error` body field: `false` when the
field is absent (optional chaining short-circuits to `undefined`, falsy). -/
def errorFieldIncludes (data : Option Json) (pat : String) : Bool :=
  match errorField data with
  | some s => strIncludes s pat
  | none => false

/-- Response classification of the older merge-conflict variant
`MergeConflict.resolve` (src/src/merge_conflict.ts lines 116-148): this variant
reads the `error` body field, maps 409 to AlreadyResolved, and refines a 422
validation failure by message substrings; `.ok` means the method goes on to
refresh the conflict.  The surrounding try/catch re-throws every
`RecallrAIError` unchanged, so it does not alter these classifications. -/
def resolveClassifyU (resp : HttpResponse) : Except SdkError Unit :=
  if resp.status = 404 then
    if errorFieldIncludes resp.data "User" then
      .error (.userNotFound (errorFieldOr resp.data "") resp.status)
    else
      .error (.mergeConflictNotFound
        (errorFieldOr resp.data "Merge conflict not found") resp.status)
  else if resp.status = 409 then
    .error (.alreadyResolved
      (errorFieldOr resp.data "Merge conflict already resolved") resp.status)
  else if resp.status = 422 then
    let errorMessage := errorFieldOr resp.data "Validation error"
    if strIncludes errorMessage "questions" then
      .error (.invalidQuestions errorMessage resp.status)
    else if strIncludes errorMessage "missing" || strIncludes errorMessage "required" then
      .error (.missingAnswers errorMessage resp.status)
    else if strIncludes errorMessage "invalid" && strIncludes errorMessage "answer" then
      .error (.invalidAnswer errorMessage resp.status)
    else
      .error (.recallrAI errorMessage resp.status)
  else if 400 ≤ resp.status then
    .error (.recallrAI
      (errorFieldOr resp.data "Failed to resolve merge conflict") resp.status)
  else
    .ok ()

/-- The outcome of one transport call: a completed HTTP response, or a
transport-level failure (axios ECONNABORTED timeout, or a DNS / connection
failure). -/
inductive TransportOutcome where
  | response (r : HttpResponse)
  | timedOut (msg : String)
  | connectFailed (msg : String)

/-- Embedding of `HTTPClient.request` (src/src/utils/http-client.ts lines 81-133): a timed
out call surfaces as `TimeoutError`, a connection failure as `ConnectionError`;
a completed response with status 422 / 500 / 401 is converted to the
corresponding typed error, every other response is handed back to the calling
method for classification. -/
def httpRequest : TransportOutcome → Except SdkError HttpResponse
  | .timedOut m => .error (.timeout ("Request timed out: " ++ m) 0)
  | .connectFailed m => .error (.connection ("Failed to connect to the API: " ++ m) 0)
  | .response r =>
    if r.status = 422 then
      .error (.validation (detailOr r.data "Validation error") r.status)
    else if r.status = 500 then
      .error (.internalServer (detailOr r.data "Internal server error") r.status)
    else if r.status = 401 then
      .error (.authentication (detailOr r.data "Authentication failed") r.status)
    else
      .ok r

/-- The message carried by an SDK error (`error.message`). -/
def SdkError.message : SdkError → String
  | .recallrAI m _ => m
  | .authentication m _ => m
  | .timeout m _ => m
  | .connection m _ => m
  | .internalServer m _ => m
  | .rateLimit m _ => m
  | .validation m _ => m
  | .userNotFound m _ => m
  | .sessionNotFound m _ => m
  | .invalidSessionState m _ => m
  | .mergeConflictNotFound m _ => m
  | .alreadyResolved m _ => m
  | .invalidQuestions m _ => m
  | .missingAnswers m _ => m
  | .invalidAnswer m _ => m
  | .plain m => m
  | .httpStatusError m _ => m

/-- Embedding of the catch wrapper of the older `MergeConflict.resolve`
(src/src/merge_conflict.ts lines 152-157): an error that is an instance of
`RecallrAIError` is rethrown unchanged, anything else is wrapped in a generic
`RecallrAIError` with status 500. -/
def rethrowOrWrap (e : SdkError) : SdkError :=
  if e.isRecallrAIError then e
  else .recallrAI ("Failed to resolve merge conflict: " ++ e.message) 500

/-- Composition of the older `MergeConflict.resolve` with the HTTP client as
the SDK assembles them: the transport call goes through `HTTPClient.request`,
which converts every 422 response into `ValidationError` before the method
body ever sees it (src/src/utils/http-client.ts lines 94 and 122; the
part_017 client does the same in `handleError` line 137); only responses the
client hands back reach the method-internal classification; and every error
escaping the try block passes through the catch wrapper.  `.ok` means the
method goes on to refresh the conflict. -/
def resolveRunU (t : TransportOutcome) : Except SdkError Unit :=
  match httpRequest t with
  | .error e => .error (rethrowOrWrap e)
  | .ok r =>
    match resolveClassifyU r with
    | .error e => .error (rethrowOrWrap e)
    | .ok _ => .ok ()

/-- Composition of `MergeConflict.resolve` end to end: the local already-resolved guard, then
the transport call, then the response classification and snapshot update. -/
def MergeConflict.resolveRun (c : MergeConflict) (answers : List MCAnswer)
    (t : TransportOutcome) : Except SdkError Unit × MergeConflict :=
  match c.resolveStep answers with
  | .throwLocal e => (.error e, c)
  | .sendRequest _ _ =>
    match httpRequest t with
    | .error e => (.error e, c)
    | .ok r => c.resolveClassify r

/-- Composition of `MergeConflict.refresh` end to end: transport call, then classification and
snapshot update. -/
def MergeConflict.refreshRun (c : MergeConflict) (t : TransportOutcome) :
    Except SdkError Unit × MergeConflict :=
  match httpRequest t with
  | .error e => (.error e, c)
  | .ok r => c.refreshClassify r

/-- Composition of `Session.refresh` end to end: transport call, then classification and
snapshot update. -/
def Session.refreshRun (s : Session) (t : TransportOutcome) :
    Except SdkError Unit × Session :=
  match httpRequest t with
  | .error e => (.error e, s)
  | .ok r => s.refresh r

/-- An axios error as seen by `HTTPClient.handleError`: the error code, the
message, and the completed response when one was received. -/
structure AxiosErrorV where
  code : Option String
  message : String
  response : Option HttpResponse

/-- Embedding of `HTTPClient.handleError` (src/unnamed/part_017 lines 119-158): map a failed
axios call to an SDK error.  ECONNABORTED becomes `TimeoutError`; ENOTFOUND and
ECONNREFUSED, and any failure without a response, become `ConnectionError`;
response statuses 422, 429, 500 and 401 become the corresponding typed errors;
any other status becomes a bare `Error` that merely carries the status and body
(`httpStatusError`). -/
def handleError (e : AxiosErrorV) : SdkError :=
  if e.code = some "ECONNABORTED" then
    .timeout "Request timed out" 408
  else if e.code = some "ENOTFOUND" ∨ e.code = some "ECONNREFUSED" then
    .connection ("Failed to connect to the API: " ++ e.message) 503
  else
    match e.response with
    | none => .connection ("Network error occurred: " ++ e.message) 503
    | some r =>
      let detail := detailOr r.data "An unknown error occurred"
      if r.status = 422 then .validation detail r.status
      else if r.status = 429 then .rateLimit detail r.status
      else if r.status = 500 then .internalServer detail r.status
      else if r.status = 401 then .authentication detail 401
      else .httpStatusError detail r.status

/-- The local phase of `User.getLastNMessages`
(src/src/user.ts lines 323-340): reject `n` outside 1..100 with a bare
JavaScript `Error` before any network activity, otherwise issue
`GET .../messages` with `limit = n`.  The second component of `sendGet` is the
query parameter list. -/
inductive GetStep where
  | throwLocal (e : SdkError)
  | sendGet (path : String) (params : List (String × Json))

/-- Embedding of the `User.getLastNMessages` local guard and request construction. -/
def getLastNMessagesStep (userId : String) (n : Rat) : GetStep :=
  if n < 1 ∨ n > 100 then
    .throwLocal (.plain "n must be between 1 and 100")
  else
    .sendGet ("/api/v1/users/" ++ userId ++ "/messages") [("limit", Json.num n)]

/-- Modelled from the spec: the backend of the add-message and process
endpoints is not part of this repository.  Per the spec (sections 4.3 and 8),
for a session already PROCESSED or FAILED the server rejects the mutating
operation with HTTP 400 and an InvalidState detail, and accepts it with 200
otherwise. -/
def serverMutationResponse (serverStatus : SessionStatus) : HttpResponse :=
  if serverStatus = .processed ∨ serverStatus = .failed then
    { status := 400,
      data := some (Json.obj [("detail",
        Json.str ("Cannot modify session with status " ++ serverStatus.toStr))]) }
  else
    { status := 200, data := some (Json.obj []) }

/-!  Theorems for the spec claims. -/

/-- Claim C1: for every `MergeConflict` handle whose cached status is RESOLVED
or FAILED, `resolve(answers)` throws `MergeConflictAlreadyResolvedError`
locally, for any answer list, without handing any request to the transport
layer (`resolveStep` returns `throwLocal`, never `sendRequest`). -/
theorem mergeConflict_resolve_local_guard (c : MergeConflict)
    (answers : List MCAnswer) (h : c.status = .resolved ∨ c.status = .failed) :
    c.resolveStep answers = .throwLocal (.alreadyResolved
      ("Merge conflict " ++ c.conflictId ++ " is already resolved") 400) := by
  unfold MergeConflict.resolveStep
  rw [if_pos h]

/-- Witness for C1: a concrete RESOLVED conflict is rejected locally. -/
theorem mergeConflict_resolve_local_guard_witness :
    ({ userId := "u1", conflictId := "c1", status := .resolved,
       newMemoryContent := "m", conflictingMemories := [],
       clarifyingQuestions := [], createdAt := ⟨none⟩, resolvedAt := none,
       resolutionData := none } : MergeConflict).resolveStep []
      = .throwLocal (.alreadyResolved "Merge conflict c1 is already resolved" 400) :=
  mergeConflict_resolve_local_guard _ [] (Or.inl rfl)

/-- Claim C2: a 404 response whose detail contains `User <userId> not found`
maps to `UserNotFoundError`; any other 404 detail (including an absent or
empty one, for which `detailOr` yields `""`) maps to the narrower entity
error — `SessionNotFoundError` for `Session.addMessage`,
`MergeConflictNotFoundError` for `MergeConflict.resolve`. -/
theorem notFound404_disambiguation (s : Session) (c : MergeConflict)
    (resp : HttpResponse) (h404 : resp.status = 404) :
    (strIncludes (detailOr resp.data "") ("User " ++ s.userId ++ " not found") = true →
      (s.addMessage resp).fst = .error (.userNotFound (detailOr resp.data "") 404)) ∧
    (strIncludes (detailOr resp.data "") ("User " ++ s.userId ++ " not found") = false →
      (s.addMessage resp).fst = .error (.sessionNotFound (detailOr resp.data "") 404)) ∧
    (strIncludes (detailOr resp.data "") ("User " ++ c.userId ++ " not found") = true →
      (c.resolveClassify resp).fst = .error (.userNotFound (detailOr resp.data "") 404)) ∧
    (strIncludes (detailOr resp.data "") ("User " ++ c.userId ++ " not found") = false →
      (c.resolveClassify resp).fst = .error (.mergeConflictNotFound (detailOr resp.data "") 404)) := by
  refine ⟨?_, ?_, ?_, ?_⟩ <;> intro h <;>
    simp [Session.addMessage, MergeConflict.resolveClassify, h404, h]

/-- Witness for C2: a 404 whose detail names the user maps to
`UserNotFoundError` on `addMessage`, and a 404 with an absent body maps to the
narrower errors on both operations. -/
theorem notFound404_disambiguation_witness :
    (({ userId := "u1", sessionId := "s1", status := .pending,
        createdAt := ⟨none⟩, metadata := none } : Session).addMessage
       ⟨404, some (Json.obj [("detail", Json.str "User u1 not found")])⟩).fst
      = .error (.userNotFound "User u1 not found" 404) ∧
    (({ userId := "u1", sessionId := "s1", status := .pending,
        createdAt := ⟨none⟩, metadata := none } : Session).addMessage
       ⟨404, none⟩).fst = .error (.sessionNotFound "" 404) ∧
    (({ userId := "u1", conflictId := "c1", status := .pending,
        newMemoryContent := "m", conflictingMemories := [],
        clarifyingQuestions := [], createdAt := ⟨none⟩, resolvedAt := none,
        resolutionData := none } : MergeConflict).resolveClassify
       ⟨404, none⟩).fst = .error (.mergeConflictNotFound "" 404) := by
  refine ⟨?_, ?_, ?_⟩
  · exact (notFound404_disambiguation
      { userId := "u1", sessionId := "s1", status := .pending,
        createdAt := ⟨none⟩, metadata := none }
      { userId := "u1", conflictId := "c1", status := .pending,
        newMemoryContent := "m", conflictingMemories := [],
        clarifyingQuestions := [], createdAt := ⟨none⟩, resolvedAt := none,
        resolutionData := none }
      ⟨404, some (Json.obj [("detail", Json.str "User u1 not found")])⟩ rfl).1
      (by decide)
  · exact (notFound404_disambiguation
      { userId := "u1", sessionId := "s1", status := .pending,
        createdAt := ⟨none⟩, metadata := none }
      { userId := "u1", conflictId := "c1", status := .pending,
        newMemoryContent := "m", conflictingMemories := [],
        clarifyingQuestions := [], createdAt := ⟨none⟩, resolvedAt := none,
        resolutionData := none }
      ⟨404, none⟩ rfl).2.1 (by decide)
  · exact (notFound404_disambiguation
      { userId := "u1", sessionId := "s1", status := .pending,
        createdAt := ⟨none⟩, metadata := none }
      { userId := "u1", conflictId := "c1", status := .pending,
        newMemoryContent := "m", conflictingMemories := [],
        clarifyingQuestions := [], createdAt := ⟨none⟩, resolvedAt := none,
        resolutionData := none }
      ⟨404, none⟩ rfl).2.2.2 (by decide)

/-- Helper: the internal 422 classification block of the older
`MergeConflict.resolve` (src/src/merge_conflict.ts lines 135-148), taken in
isolation: a message containing `questions` yields InvalidQuestions; otherwise
one containing `missing` or `required` yields MissingAnswers; otherwise one
containing both `invalid` and `answer` yields InvalidAnswer; any other message
yields the generic `RecallrAIError`.  In the assembled SDK this block is
unreachable: the HTTP client converts every 422 into `ValidationError` before
it runs (see the C3 theorem below). -/
theorem resolveClassifyU_block_refinement (resp : HttpResponse) (m : String)
    (h : resp.status = 422) (hm : m = errorFieldOr resp.data "Validation error") :
    (strIncludes m "questions" = true →
      resolveClassifyU resp = .error (.invalidQuestions m 422)) ∧
    (strIncludes m "questions" = false →
      (strIncludes m "missing" || strIncludes m "required") = true →
      resolveClassifyU resp = .error (.missingAnswers m 422)) ∧
    (strIncludes m "questions" = false →
      (strIncludes m "missing" || strIncludes m "required") = false →
      (strIncludes m "invalid" && strIncludes m "answer") = true →
      resolveClassifyU resp = .error (.invalidAnswer m 422)) ∧
    (strIncludes m "questions" = false →
      (strIncludes m "missing" || strIncludes m "required") = false →
      (strIncludes m "invalid" && strIncludes m "answer") = false →
      resolveClassifyU resp = .error (.recallrAI m 422)) ∧
    (∃ e, resolveClassifyU resp = .error e) := by
  subst hm
  refine ⟨?_, ?_, ?_, ?_, ?_⟩
  · intro h1; simp [resolveClassifyU, h, h1]
  · intro h1 h2; simp [resolveClassifyU, h, h1, h2]
  · intro h1 h2 h3; simp [resolveClassifyU, h, h1, h2, h3]
  · intro h1 h2 h3; simp [resolveClassifyU, h, h1, h2, h3]
  · simp only [resolveClassifyU, h]
    norm_num
    split_ifs <;> exact ⟨_, rfl⟩

/-- Helper examples: concrete 422 bodies fed directly to the isolated block
hit each refined error. -/
theorem resolveClassifyU_block_refinement_examples :
    resolveClassifyU ⟨422, some (Json.obj [("error", Json.str "Invalid questions provided")])⟩
      = .error (.invalidQuestions "Invalid questions provided" 422) ∧
    resolveClassifyU ⟨422, some (Json.obj [("error", Json.str "missing answers")])⟩
      = .error (.missingAnswers "missing answers" 422) ∧
    resolveClassifyU ⟨422, some (Json.obj [("error", Json.str "invalid value for answer")])⟩
      = .error (.invalidAnswer "invalid value for answer" 422) ∧
    resolveClassifyU ⟨422, none⟩
      = .error (.recallrAI "Validation error" 422) := by
  refine ⟨?_, ?_, ?_, ?_⟩
  · exact (resolveClassifyU_block_refinement
      ⟨422, some (Json.obj [("error", Json.str "Invalid questions provided")])⟩
      "Invalid questions provided" rfl (by decide)).1 (by decide)
  · exact (resolveClassifyU_block_refinement
      ⟨422, some (Json.obj [("error", Json.str "missing answers")])⟩
      "missing answers" rfl (by decide)).2.1 (by decide) (by decide)
  · exact (resolveClassifyU_block_refinement
      ⟨422, some (Json.obj [("error", Json.str "invalid value for answer")])⟩
      "invalid value for answer" rfl (by decide)).2.2.1 (by decide) (by decide) (by decide)
  · exact (resolveClassifyU_block_refinement ⟨422, none⟩
      "Validation error" rfl (by decide)).2.2.2.1 (by decide) (by decide) (by decide)

/-- Claim C3 (code bug): in the assembled SDK a 422 validation failure on
`MergeConflict.resolve` is never refined into the merge-conflict validation
errors, although the method documents them and its classification block
implements them: the HTTP client converts every 422 response into
`ValidationError` before the method body runs, and the catch wrapper rethrows
`RecallrAIError` instances (which `ValidationError` is) unchanged — so every
422 resolve call throws exactly `ValidationError`, never InvalidQuestions,
MissingAnswers or InvalidAnswer. -/
theorem resolve422_dead_validation (r : HttpResponse) (h : r.status = 422) :
    resolveRunU (.response r)
      = .error (.validation (detailOr r.data "Validation error") 422) ∧
    (∀ msg st, resolveRunU (.response r) ≠ .error (.invalidQuestions msg st)) ∧
    (∀ msg st, resolveRunU (.response r) ≠ .error (.missingAnswers msg st)) ∧
    (∀ msg st, resolveRunU (.response r) ≠ .error (.invalidAnswer msg st)) := by
  have hmain : resolveRunU (.response r)
      = .error (.validation (detailOr r.data "Validation error") 422) := by
    simp [resolveRunU, httpRequest, h, rethrowOrWrap, SdkError.isRecallrAIError]
  refine ⟨hmain, ?_, ?_, ?_⟩ <;> intro msg st <;> rw [hmain] <;> simp

/-- Witness for C3: the concrete failing input — a 422 response carrying the
invalid-questions message in its body — surfaces as `ValidationError` (the
client does not even read the body's `error` field: it reads `detail`), not as
`MergeConflictInvalidQuestionsError`. -/
theorem resolve422_dead_validation_witness :
    resolveRunU (.response
        ⟨422, some (Json.obj [("error", Json.str "Invalid questions provided")])⟩)
      = .error (.validation "Validation error" 422) ∧
    resolveRunU (.response
        ⟨422, some (Json.obj [("error", Json.str "Invalid questions provided")])⟩)
      ≠ .error (.invalidQuestions "Invalid questions provided" 422) := by
  have h := resolve422_dead_validation
    ⟨422, some (Json.obj [("error", Json.str "Invalid questions provided")])⟩ rfl
  exact ⟨h.1, h.2.1 "Invalid questions provided" 422⟩

/-- Claim C4: `addMessage` and `process` leave the local snapshot unchanged on
every outcome (their bodies never assign a snapshot field); every 400 response
becomes `InvalidSessionStateError`; and, with the spec-modelled server, a
session whose server-side state is PROCESSED or FAILED gets a 400 response, so
both operations fail with InvalidState and the handle is unchanged. -/
theorem session_mutators_frame (s : Session) (resp : HttpResponse) :
    (s.addMessage resp).snd = s ∧
    (s.process resp).snd = s ∧
    (resp.status = 400 →
      (s.addMessage resp).fst = .error (.invalidSessionState
        (detailOr resp.data
          ("Cannot add message to session with status " ++ s.status.toStr)) 400) ∧
      (s.process resp).fst = .error (.invalidSessionState
        (detailOr resp.data
          ("Cannot process session with status " ++ s.status.toStr)) 400)) ∧
    (s.status = .processed ∨ s.status = .failed →
      s.addMessage (serverMutationResponse s.status)
        = (.error (.invalidSessionState
            ("Cannot modify session with status " ++ s.status.toStr) 400), s) ∧
      s.process (serverMutationResponse s.status)
        = (.error (.invalidSessionState
            ("Cannot modify session with status " ++ s.status.toStr) 400), s)) := by
  refine ⟨?_, ?_, ?_, ?_⟩
  · unfold Session.addMessage; split_ifs <;> simp [apply_ite]
  · unfold Session.process; split_ifs <;> simp [apply_ite]
  · intro h400
    constructor <;> simp [Session.addMessage, Session.process, h400]
  · intro hterm
    rcases hterm with h | h <;> rw [h] <;>
      constructor <;>
        simp [Session.addMessage, Session.process, serverMutationResponse,
          detailOr, Json.getField, lookupField, SessionStatus.toStr]

/-- Witness for C4: a concrete PROCESSED session is rejected with InvalidState
by both mutators, a concrete 400 response maps to InvalidState, and the
snapshot is unchanged throughout. -/
theorem session_mutators_frame_witness :
    (({ userId := "u1", sessionId := "s1", status := .processed,
        createdAt := ⟨none⟩, metadata := none } : Session).addMessage
      (serverMutationResponse .processed))
      = (.error (.invalidSessionState
          "Cannot modify session with status processed" 400),
         { userId := "u1", sessionId := "s1", status := .processed,
           createdAt := ⟨none⟩, metadata := none }) ∧
    (({ userId := "u1", sessionId := "s1", status := .processed,
        createdAt := ⟨none⟩, metadata := none } : Session).process
      (serverMutationResponse .processed))
      = (.error (.invalidSessionState
          "Cannot modify session with status processed" 400),
         { userId := "u1", sessionId := "s1", status := .processed,
           createdAt := ⟨none⟩, metadata := none }) := by
  have h := (session_mutators_frame
    { userId := "u1", sessionId := "s1", status := .processed,
      createdAt := ⟨none⟩, metadata := none }
    (serverMutationResponse .processed)).2.2.2 (Or.inl rfl)
  exact h

/-- Claim C5: a successful `refresh` overwrites the local snapshot with exactly
the snapshot parsed from the 200 response, whatever the prior snapshot was
(the handle is universally quantified and the result fields depend only on the
parsed model), and repeating `refresh` against the same response is
idempotent; both for the `Session` and the `MergeConflict` controller. -/
theorem refresh_overwrites_snapshot (s : Session) (c : MergeConflict)
    (rs rc : HttpResponse) (ds dc : Json)
    (m : SessionModelV) (mc : MergeConflictModelV)
    (hs : rs.status = 200) (hds : rs.data = some ds)
    (hm : parseSessionResponse ds = some m)
    (hc : rc.status = 200) (hdc : rc.data = some dc)
    (hmc : parseMergeConflictResponse dc = some mc) :
    s.refresh rs
      = (.ok (), { s with status := m.status, createdAt := m.createdAt, metadata := m.metadata }) ∧
    (s.refresh rs).snd.refresh rs = s.refresh rs ∧
    c.refreshClassify rc
      = (.ok (), { c with status := mc.status, resolvedAt := mc.resolvedAt, resolutionData := mc.resolutionData }) ∧
    (c.refreshClassify rc).snd.refreshClassify rc = c.refreshClassify rc := by
  refine ⟨?_, ?_, ?_, ?_⟩ <;>
    simp [Session.refresh, MergeConflict.refreshClassify, hs, hds, hm, hc, hdc, hmc]

/-- Witness for C5: refreshing a concrete stale session and conflict from
concrete 200 bodies yields exactly the parsed snapshots, idempotently. -/
theorem refresh_overwrites_snapshot_witness :
    ({ userId := "u1", sessionId := "s1", status := .pending,
       createdAt := ⟨none⟩, metadata := none } : Session).refresh
      ⟨200, some (Json.obj [("session_id", Json.str "s1"),
        ("status", Json.str "processed"),
        ("created_at", Json.str "2024-01-01T00:00:00Z")])⟩
      = (.ok (),
         { userId := "u1"
           sessionId := "s1"
           status := .processed
           createdAt := ⟨some (Json.str "2024-01-01T00:00:00Z")⟩
           metadata := none }) ∧
    ({ userId := "u1", conflictId := "c1", status := .pending,
       newMemoryContent := "m", conflictingMemories := [],
       clarifyingQuestions := [], createdAt := ⟨none⟩, resolvedAt := none,
       resolutionData := none } : MergeConflict).refreshClassify
      ⟨200, some (Json.obj [("id", Json.str "c1"),
        ("new_memory_content", Json.str "m"),
        ("conflicting_memories", Json.arr []),
        ("clarifying_questions", Json.arr []),
        ("status", Json.str "RESOLVED"),
        ("resolved_at", Json.str "2024-01-02T00:00:00Z"),
        ("created_at", Json.str "2024-01-01T00:00:00Z")])⟩
      = (.ok (),
         { userId := "u1"
           conflictId := "c1"
           status := .resolved
           newMemoryContent := "m"
           conflictingMemories := []
           clarifyingQuestions := []
           createdAt := ⟨none⟩
           resolvedAt := some ⟨some (Json.str "2024-01-02T00:00:00Z")⟩
           resolutionData := none }) := by
  have h := refresh_overwrites_snapshot
    { userId := "u1", sessionId := "s1", status := .pending,
      createdAt := ⟨none⟩, metadata := none }
    { userId := "u1", conflictId := "c1", status := .pending,
      newMemoryContent := "m", conflictingMemories := [],
      clarifyingQuestions := [], createdAt := ⟨none⟩, resolvedAt := none,
      resolutionData := none }
    ⟨200, some (Json.obj [("session_id", Json.str "s1"),
      ("status", Json.str "processed"),
      ("created_at", Json.str "2024-01-01T00:00:00Z")])⟩
    ⟨200, some (Json.obj [("id", Json.str "c1"),
      ("new_memory_content", Json.str "m"),
      ("conflicting_memories", Json.arr []),
      ("clarifying_questions", Json.arr []),
      ("status", Json.str "RESOLVED"),
      ("resolved_at", Json.str "2024-01-02T00:00:00Z"),
      ("created_at", Json.str "2024-01-01T00:00:00Z")])⟩
    (Json.obj [("session_id", Json.str "s1"),
      ("status", Json.str "processed"),
      ("created_at", Json.str "2024-01-01T00:00:00Z")])
    (Json.obj [("id", Json.str "c1"),
      ("new_memory_content", Json.str "m"),
      ("conflicting_memories", Json.arr []),
      ("clarifying_questions", Json.arr []),
      ("status", Json.str "RESOLVED"),
      ("resolved_at", Json.str "2024-01-02T00:00:00Z"),
      ("created_at", Json.str "2024-01-01T00:00:00Z")])
    { sessionId := "s1", status := .processed,
      createdAt := ⟨some (Json.str "2024-01-01T00:00:00Z")⟩, metadata := none }
    { id := "c1"
      projectUserSessionId := none
      newMemoryContent := "m"
      conflictingMemories := []
      clarifyingQuestions := []
      status := .resolved
      resolutionData := none
      createdAt := ⟨some (Json.str "2024-01-01T00:00:00Z")⟩
      resolvedAt := some ⟨some (Json.str "2024-01-02T00:00:00Z")⟩ }
    rfl rfl rfl rfl rfl rfl
  exact ⟨h.1, h.2.2.1⟩

/-- Claim C6: `getContext` never fails because of the local lifecycle state:
for every local status a 200 response that parses yields the context, and the
advisory is a logged warning (the second component), emitted exactly when the
local status is PROCESSED or PROCESSING, never a thrown error. -/
theorem getContext_state_tolerant (s : Session) (resp : HttpResponse)
    (c : ContextV) (h200 : resp.status = 200)
    (hc : parseContext resp.data = some c) :
    (s.getContextResp resp).fst = .ok c ∧
    ((s.getContextResp resp).snd ≠ [] ↔
      (s.status = .processed ∨ s.status = .processing)) := by
  constructor
  · simp [Session.getContextResp, h200, hc]
  · rcases s with ⟨uid, sid, st, ca, md⟩
    cases st <;> simp [Session.getContextResp, h200, hc]

/-- Witness for C6: a PROCESSED session still gets its context from a 200
response, with a warning logged; a PENDING session gets it without warning. -/
theorem getContext_state_tolerant_witness :
    (({ userId := "u1"
        sessionId := "s1"
        status := .processed
        createdAt := ⟨none⟩
        metadata := none } : Session).getContextResp
      ⟨200, some (Json.obj [("context", Json.str "ctx")])⟩).fst
      = .ok ⟨"ctx"⟩ ∧
    ((({ userId := "u1"
         sessionId := "s1"
         status := .processed
         createdAt := ⟨none⟩
         metadata := none } : Session).getContextResp
      ⟨200, some (Json.obj [("context", Json.str "ctx")])⟩).snd ≠ [] ↔
        (SessionStatus.processed = SessionStatus.processed ∨
         SessionStatus.processed = SessionStatus.processing)) := by
  exact getContext_state_tolerant
    { userId := "u1", sessionId := "s1", status := .processed,
      createdAt := ⟨none⟩, metadata := none }
    ⟨200, some (Json.obj [("context", Json.str "ctx")])⟩ ⟨"ctx"⟩ rfl rfl

/-- Counterexample for C7: a completed 502 response is surfaced by
`HTTPClient.handleError` as the generic status-carrying `Error`, which is not
part of the `RecallrAIError` taxonomy — in particular it is not
`InternalServerError`, contradicting the claim that every 5xx maps to
`InternalServerError`. -/
theorem handleError_502_not_internal :
    handleError ⟨none, "Bad Gateway", some ⟨502, none⟩⟩
      = .httpStatusError "An unknown error occurred" 502 ∧
    (handleError ⟨none, "Bad Gateway", some ⟨502, none⟩⟩).isRecallrAIError
      = false := by
  exact ⟨rfl, rfl⟩

/-- Claim C7 (amended): for every axios failure carrying a completed response
(and not classified as a transport timeout or connection failure first), a 429
status is surfaced as `RateLimitError` and a 500 status as
`InternalServerError`; any other 5xx status (501..599) is surfaced as the
generic status-carrying `Error` outside the taxonomy, not as
`InternalServerError`. -/
theorem handleError_server_statuses (e : AxiosErrorV) (r : HttpResponse)
    (hc1 : e.code ≠ some "ECONNABORTED")
    (hc2 : e.code ≠ some "ENOTFOUND")
    (hc3 : e.code ≠ some "ECONNREFUSED")
    (hr : e.response = some r) :
    (r.status = 429 →
      handleError e = .rateLimit (detailOr r.data "An unknown error occurred") 429) ∧
    (r.status = 500 →
      handleError e = .internalServer (detailOr r.data "An unknown error occurred") 500) ∧
    (501 ≤ r.status → r.status ≤ 599 →
      handleError e
        = .httpStatusError (detailOr r.data "An unknown error occurred") r.status ∧
      (handleError e).isRecallrAIError = false) := by
  have hcode : ¬ (e.code = some "ENOTFOUND" ∨ e.code = some "ECONNREFUSED") := by
    rintro (h | h) <;> [exact hc2 h; exact hc3 h]
  refine ⟨?_, ?_, ?_⟩
  · intro h429
    simp [handleError, hr, hc1, hcode, h429]
  · intro h500
    simp [handleError, hr, hc1, hcode, h500]
  · intro hlo hhi
    have h422 : r.status ≠ 422 := by omega
    have h429 : r.status ≠ 429 := by omega
    have h500 : r.status ≠ 500 := by omega
    have h401 : r.status ≠ 401 := by omega
    constructor
    · simp [handleError, hr, hc1, hcode, h422, h429, h500, h401]
    · simp [handleError, SdkError.isRecallrAIError, hr, hc1, hcode, h422,
        h429, h500, h401]

/-- Witness for C7 (amended): concrete 429, 500 and 503 failures. -/
theorem handleError_server_statuses_witness :
    handleError ⟨none, "Too Many Requests", some ⟨429, none⟩⟩
      = .rateLimit "An unknown error occurred" 429 ∧
    handleError ⟨none, "Internal Server Error", some ⟨500, none⟩⟩
      = .internalServer "An unknown error occurred" 500 ∧
    (handleError ⟨none, "Service Unavailable", some ⟨503, none⟩⟩
      = .httpStatusError "An unknown error occurred" 503 ∧
     (handleError ⟨none, "Service Unavailable", some ⟨503, none⟩⟩).isRecallrAIError
      = false) := by
  refine ⟨?_, ?_, ?_⟩
  · exact (handleError_server_statuses ⟨none, "Too Many Requests", some ⟨429, none⟩⟩
      ⟨429, none⟩ (by decide) (by decide) (by decide) rfl).1 rfl
  · exact (handleError_server_statuses ⟨none, "Internal Server Error", some ⟨500, none⟩⟩
      ⟨500, none⟩ (by decide) (by decide) (by decide) rfl).2.1 rfl
  · exact (handleError_server_statuses ⟨none, "Service Unavailable", some ⟨503, none⟩⟩
      ⟨503, none⟩ (by decide) (by decide) (by decide) rfl).2.2 (by norm_num) (by norm_num)

/-- Counterexample for C8: with every optional argument omitted, the request
parameter list still carries a value for `min_top_k` (the client-side default
15), contradicting the claim that an omitted field is absent from the request
so that a server-side default would apply. -/
theorem getContextParams_omitted_still_sent :
    ("min_top_k", Json.num 15) ∈ getContextParams {} := by
  simp [getContextParams]

/-- Claim C8 (amended): every `getContext` configuration field is optional;
`lastNMessages`, `lastNSummaries` and `timezone` are omitted from the request
when the caller omits them, but the recall strategy, the top-k bounds and the
similarity thresholds are always sent, filled with the client-side defaults
`balanced`, 15, 50, 0.6 and 0.5 when omitted (and this variant has no
system-prompt flag). -/
theorem getContextParams_spec (a : GetContextArgs) :
    ("recall_strategy", Json.str (a.recallStrategy.getD .balanced).toStr)
      ∈ getContextParams a ∧
    ("min_top_k", Json.num (a.minTopK.getD 15)) ∈ getContextParams a ∧
    ("max_top_k", Json.num (a.maxTopK.getD 50)) ∈ getContextParams a ∧
    ("memories_threshold", Json.num (a.memoriesThreshold.getD (6 / 10)))
      ∈ getContextParams a ∧
    ("summaries_threshold", Json.num (a.summariesThreshold.getD (1 / 2)))
      ∈ getContextParams a ∧
    (a.lastNMessages = none → ∀ v, ("last_n_messages", v) ∉ getContextParams a) ∧
    (∀ v, a.lastNMessages = some v →
      ("last_n_messages", Json.num v) ∈ getContextParams a) ∧
    (a.lastNSummaries = none → ∀ v, ("last_n_summaries", v) ∉ getContextParams a) ∧
    (∀ v, a.lastNSummaries = some v →
      ("last_n_summaries", Json.num v) ∈ getContextParams a) ∧
    (a.timezone = none → ∀ v, ("timezone", v) ∉ getContextParams a) ∧
    (∀ tz, a.timezone = some tz → ("timezone", Json.str tz) ∈ getContextParams a) := by
  rcases a with ⟨rs, mink, maxk, mt, st, lnm, lns, tz⟩
  rcases lnm with _ | v1 <;> rcases lns with _ | v2 <;> rcases tz with _ | v3 <;>
    simp [getContextParams]

/-- Witness for C8 (amended): with everything omitted the defaults are sent and
the trailing-count and timezone keys are absent; with `lastNMessages` supplied
its value is sent. -/
theorem getContextParams_spec_witness :
    ("min_top_k", Json.num 15) ∈ getContextParams { timezone := none } ∧
    (∀ v, ("last_n_messages", v) ∉ getContextParams { timezone := none }) ∧
    ("last_n_messages", Json.num 4)
      ∈ getContextParams { lastNMessages := some 4 } := by
  refine ⟨(getContextParams_spec { timezone := none }).2.1, ?_, ?_⟩
  · exact (getContextParams_spec { timezone := none }).2.2.2.2.2.1 rfl
  · exact (getContextParams_spec { lastNMessages := some 4 }).2.2.2.2.2.2.1 4 rfl

/-- Helper: `MergeConflict.resolveClassify` either leaves the handle unchanged or
succeeds: the snapshot assignments happen only after all error checks. -/
theorem resolveClassify_cases (c : MergeConflict) (r : HttpResponse) :
    (c.resolveClassify r).snd = c ∨ (c.resolveClassify r).fst = .ok () := by
  unfold MergeConflict.resolveClassify
  split_ifs
  · left; simp [apply_ite Prod.snd]
  · left; simp [apply_ite Prod.snd]
  · left; rfl
  · rcases hd : r.data with _ | d
    · left; rfl
    · rcases hp : parseMergeConflictResponse d with _ | m
      · dsimp only; rw [hp]; left; rfl
      · dsimp only; rw [hp]; right; rfl

/-- Every error outcome of `MergeConflict.resolveClassify` leaves the handle
unchanged. -/
theorem resolveClassify_error_frame (c : MergeConflict) (r : HttpResponse)
    (e : SdkError) (h : (c.resolveClassify r).fst = .error e) :
    (c.resolveClassify r).snd = c := by
  rcases resolveClassify_cases c r with hc | hu
  · exact hc
  · rw [hu] at h; cases h

/-- Helper: `MergeConflict.refreshClassify` either leaves the handle unchanged or
succeeds. -/
theorem refreshClassify_cases (c : MergeConflict) (r : HttpResponse) :
    (c.refreshClassify r).snd = c ∨ (c.refreshClassify r).fst = .ok () := by
  unfold MergeConflict.refreshClassify
  split_ifs
  · left; simp [apply_ite Prod.snd]
  · left; rfl
  · rcases hd : r.data with _ | d
    · left; rfl
    · rcases hp : parseMergeConflictResponse d with _ | m
      · dsimp only; rw [hp]; left; rfl
      · dsimp only; rw [hp]; right; rfl

/-- Every error outcome of `MergeConflict.refreshClassify` leaves the handle
unchanged. -/
theorem refreshClassify_error_frame (c : MergeConflict) (r : HttpResponse)
    (e : SdkError) (h : (c.refreshClassify r).fst = .error e) :
    (c.refreshClassify r).snd = c := by
  rcases refreshClassify_cases c r with hc | hu
  · exact hc
  · rw [hu] at h; cases h

/-- Helper: `Session.refresh` either leaves the handle unchanged or succeeds. -/
theorem sessionRefresh_cases (s : Session) (r : HttpResponse) :
    (s.refresh r).snd = s ∨ (s.refresh r).fst = .ok () := by
  unfold Session.refresh
  split_ifs
  · left; simp [apply_ite Prod.snd]
  · left; rfl
  · rcases hd : r.data with _ | d
    · left; rfl
    · rcases hp : parseSessionResponse d with _ | m
      · dsimp only; rw [hp]; left; rfl
      · dsimp only; rw [hp]; right; rfl

/-- Every error outcome of `Session.refresh` leaves the handle unchanged. -/
theorem sessionRefresh_error_frame (s : Session) (r : HttpResponse)
    (e : SdkError) (h : (s.refresh r).fst = .error e) :
    (s.refresh r).snd = s := by
  rcases sessionRefresh_cases s r with hc | hu
  · exact hc
  · rw [hu] at h; cases h

/-- Claim C9: a transport call that times out surfaces as `TimeoutError` and
leaves the local snapshot unchanged, on `MergeConflict.resolve`,
`MergeConflict.refresh` and `Session.refresh`; and in general every error
outcome of these operations leaves the handle exactly as it was, because the
snapshot assignments are the last step after all error checks. -/
theorem timeout_leaves_snapshot (c : MergeConflict) (s : Session)
    (answers : List MCAnswer) (msg : String)
    (hns : ¬ (c.status = .resolved ∨ c.status = .failed)) :
    c.resolveRun answers (.timedOut msg)
      = (.error (.timeout ("Request timed out: " ++ msg) 0), c) ∧
    c.refreshRun (.timedOut msg)
      = (.error (.timeout ("Request timed out: " ++ msg) 0), c) ∧
    s.refreshRun (.timedOut msg)
      = (.error (.timeout ("Request timed out: " ++ msg) 0), s) ∧
    (∀ t e, (c.resolveRun answers t).fst = .error e →
      (c.resolveRun answers t).snd = c) ∧
    (∀ t e, (c.refreshRun t).fst = .error e → (c.refreshRun t).snd = c) ∧
    (∀ t e, (s.refreshRun t).fst = .error e → (s.refreshRun t).snd = s) := by
  refine ⟨?_, ?_, ?_, ?_, ?_, ?_⟩
  · simp [MergeConflict.resolveRun, MergeConflict.resolveStep, hns, httpRequest]
  · simp [MergeConflict.refreshRun, httpRequest]
  · simp [Session.refreshRun, httpRequest]
  · intro t e h
    unfold MergeConflict.resolveRun at h ⊢
    rcases hstep : c.resolveStep answers with e2 | ⟨p, b⟩
    · rfl
    · rcases ht : httpRequest t with e3 | r
      · rfl
      · rw [hstep, ht] at h
        exact resolveClassify_error_frame c r e h
  · intro t e h
    unfold MergeConflict.refreshRun at h ⊢
    rcases ht : httpRequest t with e3 | r
    · rfl
    · rw [ht] at h
      exact refreshClassify_error_frame c r e h
  · intro t e h
    unfold Session.refreshRun at h ⊢
    rcases ht : httpRequest t with e3 | r
    · rfl
    · rw [ht] at h
      exact sessionRefresh_error_frame s r e h

/-- Witness for C9: a concrete pending conflict and session; the timed out
call yields `TimeoutError` and the unchanged handle. -/
theorem timeout_leaves_snapshot_witness :
    ({ userId := "u1", conflictId := "c1", status := .pending,
       newMemoryContent := "m", conflictingMemories := [],
       clarifyingQuestions := [], createdAt := ⟨none⟩, resolvedAt := none,
       resolutionData := none } : MergeConflict).resolveRun []
        (.timedOut "timeout of 30000ms exceeded")
      = (.error (.timeout "Request timed out: timeout of 30000ms exceeded" 0),
         { userId := "u1", conflictId := "c1", status := .pending,
           newMemoryContent := "m", conflictingMemories := [],
           clarifyingQuestions := [], createdAt := ⟨none⟩, resolvedAt := none,
           resolutionData := none }) ∧
    ({ userId := "u1", sessionId := "s1", status := .pending,
       createdAt := ⟨none⟩, metadata := none } : Session).refreshRun
        (.timedOut "timeout of 30000ms exceeded")
      = (.error (.timeout "Request timed out: timeout of 30000ms exceeded" 0),
         { userId := "u1", sessionId := "s1", status := .pending,
           createdAt := ⟨none⟩, metadata := none }) := by
  have h := timeout_leaves_snapshot
    { userId := "u1", conflictId := "c1", status := .pending,
      newMemoryContent := "m", conflictingMemories := [],
      clarifyingQuestions := [], createdAt := ⟨none⟩, resolvedAt := none,
      resolutionData := none }
    { userId := "u1", sessionId := "s1", status := .pending,
      createdAt := ⟨none⟩, metadata := none }
    [] "timeout of 30000ms exceeded" (by rintro (h | h) <;> cases h)
  exact ⟨h.1, h.2.2.1⟩

/-- Claim C10: `User.getLastNMessages(n)` rejects every `n` outside 1..100
locally, before any transport activity, with a bare JavaScript `Error` (message
`n must be between 1 and 100`) that is not part of the `RecallrAIError`
taxonomy; for every `n` in 1..100 no local rejection happens and the request is
issued with `limit = n`. -/
theorem getLastNMessages_guard (userId : String) (n : Rat) :
    ((n < 1 ∨ n > 100) →
      getLastNMessagesStep userId n
        = .throwLocal (.plain "n must be between 1 and 100") ∧
      (SdkError.plain "n must be between 1 and 100").isRecallrAIError = false) ∧
    (1 ≤ n → n ≤ 100 →
      getLastNMessagesStep userId n
        = .sendGet ("/api/v1/users/" ++ userId ++ "/messages")
            [("limit", Json.num n)]) := by
  constructor
  · intro h
    unfold getLastNMessagesStep
    rw [if_pos h]
    exact ⟨rfl, rfl⟩
  · intro h1 h2
    have hno : ¬ (n < 1 ∨ n > 100) := by push_neg; exact ⟨h1, h2⟩
    unfold getLastNMessagesStep
    rw [if_neg hno]

/-- Witness for C10: `n = 101` is rejected locally with the non-taxonomy
error, `n = 10` is sent as `limit = 10`. -/
theorem getLastNMessages_guard_witness :
    (getLastNMessagesStep "u1" 101
      = .throwLocal (.plain "n must be between 1 and 100") ∧
     (SdkError.plain "n must be between 1 and 100").isRecallrAIError = false) ∧
    getLastNMessagesStep "u1" 10
      = .sendGet "/api/v1/users/u1/messages" [("limit", Json.num 10)] := by
  refine ⟨(getLastNMessages_guard "u1" 101).1 (Or.inr (by norm_num)), ?_⟩
  exact (getLastNMessages_guard "u1" 10).2 (by norm_num) (by norm_num)

end RecallrSDK
